import Mathlib

/-!
Verification of the FlashCAMP hierarchical scoring and decision engine.

The repository ships the frontend (TypeScript, under
flashcamp/frontend/src), the persisted model artifacts
(models/v2/model_metadata.json) and the project documentation; the
Python backend engine (flashcamp/backend/app/engines) is not part of
the source tree.  Definitions below are therefore of two kinds:

* faithful embeddings of source files present in the tree
  (ResultsPage.tsx fallback prediction, PredictionVisualization.tsx
  input coercion, model_metadata.json contents, api.ts response
  shapes);
* models of the missing engine operations, each marked
  "Modelled from the spec:" in its doc comment.

Real numbers of the program are embedded as rationals; all scores and
multipliers in the artifacts are exact decimals, so this is lossless.
-/

namespace FlashCamp

/-- The four CAMP pillars (capital, advantage, market, people). -/
inductive Pillar where
  | capital
  | advantage
  | market
  | people
deriving DecidableEq, Repr

/-- Canonical pillar order used throughout the system (C-A-M-P). -/
def pillarOrder : List Pillar :=
  [Pillar.capital, Pillar.advantage, Pillar.market, Pillar.people]

/-- Pass/fail label of a prediction. -/
inductive Label where
  | pass
  | fail
deriving DecidableEq, Repr

/-- Comparators allowed in policy rule conditions. -/
inductive Cmp where
  | gt
  | ge
  | lt
  | le
  | eq
deriving DecidableEq, Repr

/-- Evaluate a comparator: the first argument is the pillar score,
the second the condition value. -/
def evalCmp : Cmp → ℚ → ℚ → Bool
  | Cmp.gt, x, v => Decidable.decide (v < x)
  | Cmp.ge, x, v => Decidable.decide (v ≤ x)
  | Cmp.lt, x, v => Decidable.decide (x < v)
  | Cmp.le, x, v => Decidable.decide (x ≤ v)
  | Cmp.eq, x, v => Decidable.decide (x = v)

/-- One condition of a boost/penalty rule: (pillar, comparator, value). -/
structure Condition where
  pillar : Pillar
  cmp : Cmp
  value : ℚ
deriving DecidableEq, Repr

/-- A policy rule: a conjunction of conditions and a multiplier. -/
structure Rule where
  conditions : List Condition
  multiplier : ℚ
deriving DecidableEq, Repr

/-- A rule fires when all of its conditions hold against the pillar scores. -/
def ruleFires (scores : Pillar → ℚ) (r : Rule) : Bool :=
  r.conditions.all (fun c => evalCmp c.cmp (scores c.pillar) c.value)

/-- Product of the multipliers of the rules that fire, in declaration order. -/
def firedProduct (scores : Pillar → ℚ) (rules : List Rule) : ℚ :=
  ((rules.filter (ruleFires scores)).map Rule.multiplier).prod

/-- Policy configuration (config/policy.yaml shape): global threshold,
optional per-pillar minima, optional uniform strict gate, boost and
penalty rules. -/
structure PolicyConfig where
  global_threshold : ℚ
  per_pillar_min : List (Pillar × ℚ)
  strict_gate : Option ℚ
  boost_rules : List Rule
  penalty_rules : List Rule

/-- Association-list lookup keyed by decidable equality. -/
def lookupBy {α β : Type} [DecidableEq α] : List (α × β) → α → Option β
  | [], _ => none
  | x :: xs, a => if x.1 = a then some x.2 else lookupBy xs a

/-- Maximum of two rationals (JS Math.max / Python max), written with
an if so that it evaluates by kernel reduction. -/
def maxQ (a b : ℚ) : ℚ := if a ≤ b then b else a

/-- Clamp a rational into the interval [lo, hi]. -/
def clamp (x lo hi : ℚ) : ℚ := if x < lo then lo else if hi < x then hi else x

/-- Does pillar p fall below its configured minimum in the policy? -/
def violatesMin (policy : PolicyConfig) (scores : Pillar → ℚ) (p : Pillar) : Bool :=
  match lookupBy policy.per_pillar_min p with
  | some m => Decidable.decide (scores p < m)
  | none => false

/-- Modelled from the spec: strict-gate check of the Policy Engine
(4.4 step 5; the backend implementation is not in the tree).  For every
pillar with a configured minimum in per_pillar_min (or, absent
per-pillar minima, the single strict_gate applied uniformly), a pillar
scoring below its minimum is added to failed_pillars. -/
def gateFailures (policy : PolicyConfig) (scores : Pillar → ℚ) : List Pillar :=
  if policy.per_pillar_min ≠ [] then
    pillarOrder.filter (violatesMin policy scores)
  else
    match policy.strict_gate with
    | some g => pillarOrder.filter (fun p => Decidable.decide (scores p < g))
    | none => []

/-- The result record of a prediction: pillar scores, final score,
pass/fail label, confidence, echoed threshold and gate failures. -/
structure PredictionResult where
  pillar_scores : Pillar → ℚ
  final_score : ℚ
  label : Label
  confidence : ℚ
  threshold : ℚ
  failed_pillars : List Pillar

/-- Modelled from the spec: the Policy Engine operation
decide(pillar_scores, raw_meta_score, policy, strict) of 4.4 (the
backend implementation is not in the tree).  Boost and penalty rules
that fire compose multiplicatively with the raw meta score, the result
is clamped into [0,1], the active threshold is the caller override or
the global threshold, strict mode adds gate failures which dominate
the threshold comparison, and confidence is the symmetric distance
from the 0.5 boundary. -/
def decide (scores : Pillar → ℚ) (raw_meta_score : ℚ) (policy : PolicyConfig)
    (thresholdOverride : Option ℚ) (strict : Bool) : PredictionResult :=
  let bp := firedProduct scores policy.boost_rules
  let pp := firedProduct scores policy.penalty_rules
  let final := clamp (raw_meta_score * bp * pp) 0 1
  let th := thresholdOverride.getD policy.global_threshold
  let failed := if strict then gateFailures policy scores else []
  let lab := if failed ≠ [] then Label.fail
             else if th ≤ final then Label.pass else Label.fail
  { pillar_scores := scores
    final_score := final
    label := lab
    confidence := maxQ final (1 - final)
    threshold := th
    failed_pillars := failed }

/-- Impact tier of a recommendation item. -/
inductive Impact where
  | high
  | medium
  | low
deriving DecidableEq, Repr

/-- A single recommendation item grouped under a pillar. -/
structure RecommendationItem where
  metric : String
  recommendation : String
  impact : Impact
deriving DecidableEq, Repr

/-- Modelled from the spec: impact tier of the item at 0-based rank i in
a pillar ranked list of length n (4.5): high for the top third, medium
for the middle third, low otherwise. -/
def impactTier (i n : ℕ) : Impact :=
  if 3 * i < n then Impact.high
  else if 3 * i < 2 * n then Impact.medium
  else Impact.low

/-- Modelled from the spec: recommendation text synthesized from a
per-metric template, the direction given by the sign of the metric's
trained importance weight (4.5). -/
def recTemplate (metric : String) (weight : ℚ) : String :=
  if 0 ≤ weight then "Increase " ++ metric else "Reduce " ++ metric

/-- Modelled from the spec: recommendation items for one weak pillar,
the top-N metrics of its importance ranking with tiered impact (4.5). -/
def recommendPillar (ranked : List (String × ℚ)) (topN : ℕ) : List RecommendationItem :=
  (ranked.take topN).enum.map (fun e =>
    { metric := e.2.1
      recommendation := recTemplate e.2.1 e.2.2
      impact := impactTier e.1 ranked.length })

/-- Modelled from the spec: the Recommendation Generator
recommend(metrics, pillar_scores, importance) of 4.5 (the backend
implementation is not in the tree).  Every pillar is present in the
output; a pillar scoring below the benchmark gets the top-N items of
its importance ranking, a pillar at or above the benchmark gets the
empty list. -/
def recommend (scores : Pillar → ℚ) (importance : Pillar → List (String × ℚ))
    (benchmark : ℚ) (topN : ℕ) : List (Pillar × List RecommendationItem) :=
  pillarOrder.map (fun p =>
    (p, if scores p < benchmark then recommendPillar (importance p) topN else []))

/-- Modelled from the spec: the Feature Aligner align(metrics, schema)
of 4.1 restricted to the numeric v2 schemas (the backend implementation
is not in the tree).  For each feature name in the schema order, the
metric value if present, else the schema default; absence never aborts. -/
def align (metrics : List (String × ℚ)) (schema : List String) (dflt : ℚ) : List ℚ :=
  schema.map (fun nm => (lookupBy metrics nm).getD dflt)

/-! Persisted model metadata, embedded from models/v2/model_metadata.json. -/

/-- Top-level keys of models/v2/model_metadata.json, in document order. -/
def model_metadata_keys : List String :=
  ["dataset", "dataset_size", "success_rate", "feature_count",
   "pillar_models", "meta_model", "training_date"]

/-- dataset_size of models/v2/model_metadata.json. -/
def metadata_dataset_size : ℕ := 54000

/-- success_rate of models/v2/model_metadata.json. -/
def metadata_success_rate : ℚ := 0.276

/-- Declared feature_count per pillar in models/v2/model_metadata.json. -/
def featureCount : Pillar → ℕ
  | Pillar.capital => 7
  | Pillar.advantage => 10
  | Pillar.market => 7
  | Pillar.people => 9

/-- Ordered feature lists per pillar from models/v2/model_metadata.json. -/
def pillarFeatures : Pillar → List String
  | Pillar.capital =>
      ["log_cash_on_hand", "ltv_cac_ratio", "burn_multiple", "runway_est",
       "gross_margin", "customer_concentration", "post_money_valuation"]
  | Pillar.advantage =>
      ["patent_count_norm", "network_effect", "has_data_moat", "reg_advantage",
       "tech_diff_score", "switch_cost_score", "brand_strength",
       "retention_30d", "retention_90d", "nps_score_norm"]
  | Pillar.market =>
      ["tam_ratio", "sam_ratio", "cagr_pct", "market_growth_pct",
       "competition_intensity", "competition_hhi", "reg_level_idx"]
  | Pillar.people =>
      ["founders_count_norm", "team_size_norm", "domain_exp_avg", "prior_exits",
       "board_advisor_score", "team_diversity", "gender_div_idx",
       "geo_div_idx", "key_person_dependency"]

/-- Performance metrics block recorded in the metadata document. -/
structure Metrics where
  auc : ℚ
  accuracy : ℚ
  precision : ℚ
  «recall» : ℚ
  f1 : ℚ
  calibration_error : ℚ
deriving DecidableEq, Repr

/-- Per-pillar metrics from models/v2/model_metadata.json. -/
def docPillarMetrics : Pillar → Metrics
  | Pillar.capital =>
      { auc := 0.752692469023773
        accuracy := 0.7636111111111111
        precision := 0.6974169741697417
        «recall» := 0.2536061724253606
        f1 := 0.3719557195571956
        calibration_error := 0.10284844221513759 }
  | Pillar.advantage =>
      { auc := 0.5135289411701915
        accuracy := 0.7239814814814814
        precision := 0
        «recall» := 0
        f1 := 0
        calibration_error := 0.07806161534276355 }
  | Pillar.market =>
      { auc := 0.5386555058449002
        accuracy := 0.7239814814814814
        precision := 0
        «recall» := 0
        f1 := 0
        calibration_error := 0.00019125836395211815 }
  | Pillar.people =>
      { auc := 0.5346361461614826
        accuracy := 0.7239814814814814
        precision := 0
        «recall» := 0
        f1 := 0
        calibration_error := 7.179743428592511e-5 }

/-- Meta-model metrics from models/v2/model_metadata.json. -/
def docMetaMetrics : Metrics :=
  { auc := 0.7507641331107587
    accuracy := 0.7239814814814814
    precision := 0
    «recall» := 0
    f1 := 0
    calibration_error := 0.19176232428229922 }

/-! Model-info response shape (frontend/src/types/api.ts) and the
frontend fallback object (ModelInfoPanel fetchModelInfo). -/

/-- Optional metrics block of the model-info endpoint (api.ts ModelMetrics). -/
structure ModelMetricsResp where
  auc : Option ℚ
  accuracy : Option ℚ
  precision : Option ℚ
  «recall» : Option ℚ
  f1 : Option ℚ
  calibration_error : Option ℚ
deriving DecidableEq, Repr

/-- Model-info response (api.ts ModelInfoResponse): version string,
dataset size, success rate, active threshold, per-pillar and meta
metrics. -/
structure ModelInfoResponse where
  model_version : String
  dataset_size : ℕ
  success_rate : ℚ
  threshold : ℚ
  pillar_metrics : Pillar → Option ModelMetricsResp
  meta_metrics : ModelMetricsResp

/-- The fallback model info constructed by ModelInfoPanel
(fetchModelInfo) when the model-info fetch fails. -/
def fallbackModelInfo : ModelInfoResponse :=
  { model_version := "v2"
    dataset_size := 54000
    success_rate := 0.276
    threshold := 0.304
    pillar_metrics := fun p =>
      match p with
      | Pillar.capital => some
          { auc := some 0.752, accuracy := some 0.764, precision := none,
            «recall» := none, f1 := none, calibration_error := none }
      | Pillar.advantage => some
          { auc := some 0.513, accuracy := some 0.724, precision := none,
            «recall» := none, f1 := none, calibration_error := none }
      | Pillar.market => some
          { auc := some 0.538, accuracy := some 0.724, precision := none,
            «recall» := none, f1 := none, calibration_error := none }
      | Pillar.people => some
          { auc := some 0.534, accuracy := some 0.724, precision := none,
            «recall» := none, f1 := none, calibration_error := none }
    meta_metrics :=
      { auc := some 0.751, accuracy := some 0.792, precision := some 0.620,
        «recall» := some 0.620, f1 := some 0.620, calibration_error := none } }

/-! Frontend fallback prediction (ResultsPage.tsx, loadHierarchicalData). -/

/-- Shape of the object literal built in ResultsPage.tsx when the
hierarchical prediction fetch fails: pillar_scores, final_score,
prediction, confidence, threshold (no label, no failed_pillars). -/
structure FallbackPrediction where
  pillar_scores : Pillar → ℚ
  final_score : ℚ
  prediction : Label
  confidence : ℚ
  threshold : ℚ

/-- The fallback prediction of ResultsPage.tsx loadHierarchicalData:
final_score is the traditional success probability, prediction is pass
iff it is at least 0.5, confidence is max(p, 1-p), threshold is 0.5. -/
def fallbackPrediction (scores : Pillar → ℚ) (success_probability : ℚ) :
    FallbackPrediction :=
  { pillar_scores := scores
    final_score := success_probability
    prediction := if (0.5 : ℚ) ≤ success_probability then Label.pass else Label.fail
    confidence := maxQ success_probability (1 - success_probability)
    threshold := 0.5 }

/-! Input coercion (PredictionVisualization.tsx, ensureProperValue,
number branch). -/

/-- Inputs reaching the number branch of ensureProperValue in
PredictionVisualization.tsx: the JS null, undefined and empty-string
values handled up front, a numeric value, or a value whose JS Number()
coercion is NaN (a non-numeric string; the component feeds this branch
only numbers from the slider and strings from the text field). -/
inductive NumInput where
  | jnull
  | jundef
  | jempty
  | jnum (q : ℚ)
  | jnan
deriving DecidableEq, Repr

/-- The number branch of ensureProperValue in
PredictionVisualization.tsx for the metric called name: empty,
undefined and null inputs become null; a negative number becomes 0
when the metric is net_profit_margin_percent; a NaN coercion becomes
null; any other number passes through. -/
def ensureProperValue (name : String) : NumInput → Option ℚ
  | NumInput.jnull => none
  | NumInput.jundef => none
  | NumInput.jempty => none
  | NumInput.jnum q =>
      if name = "net_profit_margin_percent" ∧ q < 0 then some 0 else some q
  | NumInput.jnan => none

/-! Concrete scenarios from the spec's testable properties, used by the
claim theorems below. -/

/-- Pillar scores of the strict-gate dominance scenario
(capital 0.15, advantage 0.9, market 0.9, people 0.9). -/
def strictScores : Pillar → ℚ
  | Pillar.capital => 0.15
  | Pillar.advantage => 0.9
  | Pillar.market => 0.9
  | Pillar.people => 0.9

/-- Policy of the strict-gate dominance scenario:
per_pillar_min = \x7bcapital: 0.2, market: 0.2\x7d, threshold 0.30, no rules. -/
def strictPolicy : PolicyConfig :=
  { global_threshold := 0.30
    per_pillar_min := [(Pillar.capital, 0.2), (Pillar.market, 0.2)]
    strict_gate := none
    boost_rules := []
    penalty_rules := [] }

/-- Policy with only the F1-optimized global threshold 0.304 and one
boost rule (people > 0.8 and advantage > 0.7, multiplier 1.10). -/
def boostPolicy : PolicyConfig :=
  { global_threshold := 0.304
    per_pillar_min := []
    strict_gate := none
    boost_rules :=
      [{ conditions :=
           [{ pillar := Pillar.people, cmp := Cmp.gt, value := 0.8 },
            { pillar := Pillar.advantage, cmp := Cmp.gt, value := 0.7 }]
         multiplier := 1.10 }]
    penalty_rules := [] }

/-- Pillar scores of the boost scenario (people 0.85, advantage 0.75). -/
def boostScores : Pillar → ℚ
  | Pillar.people => 0.85
  | Pillar.advantage => 0.75
  | Pillar.capital => 0.5
  | Pillar.market => 0.5

/-- Policy with the global threshold 0.304 and one penalty rule
(capital < 0.2 and market < 0.2, multiplier 0.70). -/
def penaltyPolicy : PolicyConfig :=
  { global_threshold := 0.304
    per_pillar_min := []
    strict_gate := none
    boost_rules := []
    penalty_rules :=
      [{ conditions :=
           [{ pillar := Pillar.capital, cmp := Cmp.lt, value := 0.2 },
            { pillar := Pillar.market, cmp := Cmp.lt, value := 0.2 }]
         multiplier := 0.70 }]}

/-- Pillar scores of the penalty scenario
(capital 0.1, market 0.1, advantage 0.5, people 0.5). -/
def penaltyScores : Pillar → ℚ
  | Pillar.capital => 0.1
  | Pillar.market => 0.1
  | Pillar.advantage => 0.5
  | Pillar.people => 0.5

/-- Policy with only the global F1-optimized threshold 0.304: no
per-pillar minima, no strict gate, no rules. -/
def basePolicy : PolicyConfig :=
  { global_threshold := 0.304
    per_pillar_min := []
    strict_gate := none
    boost_rules := []
    penalty_rules := [] }

section Theorems

attribute [local semireducible] Rat.ofScientific Rat.mul Rat.add Rat.sub Rat.inv

/-- maxQ coincides with the lattice maximum on the rationals. -/
lemma maxQ_eq_max (a b : ℚ) : maxQ a b = max a b := by
  unfold maxQ
  split
  case isTrue h => exact (max_eq_right h).symm
  case isFalse h => exact (max_eq_left (le_of_not_le h)).symm

/-- clamp into [0,1] lands in [0,1]. -/
lemma clamp01_mem (x : ℚ) : 0 ≤ clamp x 0 1 ∧ clamp x 0 1 ≤ 1 := by
  unfold clamp
  split_ifs with h1 h2
  · exact ⟨le_refl 0, by linarith⟩
  · exact ⟨by linarith, le_refl 1⟩
  · exact ⟨by linarith, by linarith⟩

/-- The final score of a decision is the clamped rule-adjusted meta score. -/
lemma decide_final_score_eq (scores : Pillar → ℚ) (raw : ℚ) (policy : PolicyConfig)
    (tOv : Option ℚ) (strict : Bool) :
    (decide scores raw policy tOv strict).final_score
      = clamp (raw * firedProduct scores policy.boost_rules
                * firedProduct scores policy.penalty_rules) 0 1 := rfl

/-- The final score of a decision lies in [0,1]. -/
lemma decide_final_score_mem (scores : Pillar → ℚ) (raw : ℚ) (policy : PolicyConfig)
    (tOv : Option ℚ) (strict : Bool) :
    0 ≤ (decide scores raw policy tOv strict).final_score ∧
      (decide scores raw policy tOv strict).final_score ≤ 1 :=
  clamp01_mem _

/-- The confidence of a decision is maxQ of the final score and its complement. -/
lemma decide_confidence_eq (scores : Pillar → ℚ) (raw : ℚ) (policy : PolicyConfig)
    (tOv : Option ℚ) (strict : Bool) :
    (decide scores raw policy tOv strict).confidence
      = maxQ (decide scores raw policy tOv strict).final_score
          (1 - (decide scores raw policy tOv strict).final_score) := rfl

/-- The label of a decision, expressed through its own fields: gate
failures dominate, otherwise the inclusive threshold comparison. -/
lemma decide_label_eq (scores : Pillar → ℚ) (raw : ℚ) (policy : PolicyConfig)
    (tOv : Option ℚ) (strict : Bool) :
    (decide scores raw policy tOv strict).label
      = if (decide scores raw policy tOv strict).failed_pillars ≠ [] then Label.fail
        else if (decide scores raw policy tOv strict).threshold
                ≤ (decide scores raw policy tOv strict).final_score then Label.pass
        else Label.fail := rfl

/-- In strict mode the failed pillars are the gate failures. -/
lemma decide_failed_pillars_strict (scores : Pillar → ℚ) (raw : ℚ) (policy : PolicyConfig)
    (tOv : Option ℚ) :
    (decide scores raw policy tOv true).failed_pillars = gateFailures policy scores := rfl

/-- Every pillar is in the canonical pillar order. -/
lemma mem_pillarOrder (p : Pillar) : p ∈ pillarOrder := by
  cases p <;> simp [pillarOrder]

/-- Claim C1: in strict mode, any pillar with a configured minimum in
per_pillar_min that scores below it forces label = fail regardless of
final_score versus threshold, and failed_pillars lists exactly the
violating pillars; concretely, for per_pillar_min capital 0.2, market
0.2 and scores capital 0.15, advantage 0.9, market 0.9, people 0.9
with raw meta score 0.95 (so final_score 0.95 above the 0.30
threshold), the result is label fail with failed_pillars = [capital]. -/
theorem decide_strict_gate_dominance
    (scores : Pillar → ℚ) (raw : ℚ) (policy : PolicyConfig) (tOv : Option ℚ)
    (p : Pillar) (m : ℚ)
    (hm : lookupBy policy.per_pillar_min p = some m) (hs : scores p < m) :
    (decide scores raw policy tOv true).label = Label.fail ∧
    p ∈ (decide scores raw policy tOv true).failed_pillars ∧
    (decide scores raw policy tOv true).failed_pillars
      = pillarOrder.filter (violatesMin policy scores) ∧
    (decide strictScores 0.95 strictPolicy none true).label = Label.fail ∧
    (decide strictScores 0.95 strictPolicy none true).failed_pillars = [Pillar.capital] ∧
    (decide strictScores 0.95 strictPolicy none true).final_score = 0.95 ∧
    strictPolicy.global_threshold
      ≤ (decide strictScores 0.95 strictPolicy none true).final_score := by
  have hnil : policy.per_pillar_min ≠ [] := by
    intro hn
    rw [hn] at hm
    simp [lookupBy] at hm
  have hv : violatesMin policy scores p = true := by
    unfold violatesMin
    rw [hm]
    exact decide_eq_true hs
  have hfail : (decide scores raw policy tOv true).failed_pillars
      = pillarOrder.filter (violatesMin policy scores) := by
    rw [decide_failed_pillars_strict]
    unfold gateFailures
    rw [if_pos hnil]
  have hmem : p ∈ (decide scores raw policy tOv true).failed_pillars := by
    rw [hfail]
    exact List.mem_filter.mpr ⟨mem_pillarOrder p, hv⟩
  have hne : (decide scores raw policy tOv true).failed_pillars ≠ [] :=
    List.ne_nil_of_mem hmem
  refine ⟨?_, hmem, hfail, by decide, by decide, by decide, by decide⟩
  rw [decide_label_eq, if_pos hne]

/-- Witness for C1, at the strict-gate dominance scenario: capital has
configured minimum 0.2, scores 0.15 below it, and the decision fails. -/
theorem decide_strict_gate_dominance_witness :
    lookupBy strictPolicy.per_pillar_min Pillar.capital = some 0.2 ∧
    strictScores Pillar.capital < 0.2 ∧
    (decide strictScores 0.95 strictPolicy none true).label = Label.fail :=
  ⟨by decide, by decide,
    (decide_strict_gate_dominance strictScores 0.95 strictPolicy none
      Pillar.capital 0.2 (by decide) (by decide)).1⟩

/-- Claim C2: when no gate failure is recorded (non-strict mode, or
strict mode with no violation), label = pass exactly when final_score
is at least the threshold; concretely a final score exactly equal to
the threshold 0.304 yields pass (the boundary is inclusive). -/
theorem decide_pass_iff_threshold_le
    (scores : Pillar → ℚ) (raw : ℚ) (policy : PolicyConfig) (tOv : Option ℚ)
    (strict : Bool)
    (h : (decide scores raw policy tOv strict).failed_pillars = []) :
    ((decide scores raw policy tOv strict).label = Label.pass ↔
      (decide scores raw policy tOv strict).threshold
        ≤ (decide scores raw policy tOv strict).final_score) ∧
    (decide boostScores 0.304 basePolicy none false).final_score
      = (decide boostScores 0.304 basePolicy none false).threshold ∧
    (decide boostScores 0.304 basePolicy none false).label = Label.pass := by
  refine ⟨?_, by decide, by decide⟩
  have hne : ¬ ((decide scores raw policy tOv strict).failed_pillars ≠ []) :=
    fun hc => hc h
  rw [decide_label_eq, if_neg hne]
  by_cases hth : (decide scores raw policy tOv strict).threshold
      ≤ (decide scores raw policy tOv strict).final_score
  · rw [if_pos hth]
    simp [hth]
  · rw [if_neg hth]
    simp [hth]

/-- Witness for C2, at the threshold-boundary scenario: no gate
failures, and the label matches the inclusive threshold comparison. -/
theorem decide_pass_iff_threshold_le_witness :
    (decide boostScores 0.304 basePolicy none false).failed_pillars = [] ∧
    ((decide boostScores 0.304 basePolicy none false).label = Label.pass ↔
      (decide boostScores 0.304 basePolicy none false).threshold
        ≤ (decide boostScores 0.304 basePolicy none false).final_score) :=
  ⟨by decide,
    (decide_pass_iff_threshold_le boostScores 0.304 basePolicy none false (by decide)).1⟩

/-- Claim C3: final_score is the raw meta score times the product of
the multipliers of the firing boost rules times the product of the
multipliers of the firing penalty rules, clamped into [0,1];
concretely one firing boost with multiplier 1.10 on raw 0.50 gives
exactly 0.55 and pass at threshold 0.304, and one firing penalty with
multiplier 0.70 on raw 0.40 gives 0.28 and fail at threshold 0.304. -/
theorem decide_final_score_formula
    (scores : Pillar → ℚ) (raw : ℚ) (policy : PolicyConfig) (tOv : Option ℚ)
    (strict : Bool) :
    (decide scores raw policy tOv strict).final_score
      = clamp (raw * firedProduct scores policy.boost_rules
                * firedProduct scores policy.penalty_rules) 0 1 ∧
    (decide boostScores 0.50 boostPolicy none false).final_score = 0.55 ∧
    (decide boostScores 0.50 boostPolicy none false).label = Label.pass ∧
    (decide penaltyScores 0.40 penaltyPolicy none false).final_score = 0.28 ∧
    (decide penaltyScores 0.40 penaltyPolicy none false).label = Label.fail :=
  ⟨rfl, by decide, by decide, by decide, by decide⟩

/-- Claim C4: the confidence of every decision equals
max(final_score, 1 - final_score), lies in [0,1], and equals exactly 1
only when the final score is 0 or 1. -/
theorem decide_confidence_spec
    (scores : Pillar → ℚ) (raw : ℚ) (policy : PolicyConfig) (tOv : Option ℚ)
    (strict : Bool) :
    (decide scores raw policy tOv strict).confidence
      = max (decide scores raw policy tOv strict).final_score
          (1 - (decide scores raw policy tOv strict).final_score) ∧
    0 ≤ (decide scores raw policy tOv strict).confidence ∧
    (decide scores raw policy tOv strict).confidence ≤ 1 ∧
    ((decide scores raw policy tOv strict).confidence = 1 ↔
      (decide scores raw policy tOv strict).final_score = 0 ∨
      (decide scores raw policy tOv strict).final_score = 1) := by
  obtain ⟨h0, h1⟩ := decide_final_score_mem scores raw policy tOv strict
  have hcm : (decide scores raw policy tOv strict).confidence
      = max (decide scores raw policy tOv strict).final_score
          (1 - (decide scores raw policy tOv strict).final_score) := by
    rw [decide_confidence_eq, maxQ_eq_max]
  refine ⟨hcm, ?_, ?_, ?_⟩
  · rw [hcm]
    exact le_trans h0 (le_max_left _ _)
  · rw [hcm]
    exact max_le h1 (by linarith)
  · rw [hcm]
    constructor
    · intro hmax
      rcases le_total (decide scores raw policy tOv strict).final_score
          (1 - (decide scores raw policy tOv strict).final_score) with hle | hle
      · rw [max_eq_right hle] at hmax
        left
        linarith
      · rw [max_eq_left hle] at hmax
        right
        linarith
    · rintro (hz | ho)
      · rw [hz]
        norm_num
      · rw [ho]
        norm_num

/-- Claim C5: every decision result carries all six fields
pillar_scores, final_score, label (pass or fail), confidence,
threshold and failed_pillars, with final_score, confidence and the
echoed threshold all in [0,1]. -/
theorem decide_result_complete
    (scores : Pillar → ℚ) (raw : ℚ) (policy : PolicyConfig) (strict : Bool)
    (h0 : 0 ≤ policy.global_threshold) (h1 : policy.global_threshold ≤ 1) :
    (decide scores raw policy none strict).pillar_scores = scores ∧
    ((decide scores raw policy none strict).label = Label.pass ∨
      (decide scores raw policy none strict).label = Label.fail) ∧
    0 ≤ (decide scores raw policy none strict).final_score ∧
    (decide scores raw policy none strict).final_score ≤ 1 ∧
    0 ≤ (decide scores raw policy none strict).confidence ∧
    (decide scores raw policy none strict).confidence ≤ 1 ∧
    (decide scores raw policy none strict).threshold = policy.global_threshold ∧
    0 ≤ (decide scores raw policy none strict).threshold ∧
    (decide scores raw policy none strict).threshold ≤ 1 := by
  obtain ⟨hf0, hf1⟩ := decide_final_score_mem scores raw policy none strict
  obtain ⟨_, hc0, hc1, _⟩ := decide_confidence_spec scores raw policy none strict
  refine ⟨rfl, ?_, hf0, hf1, hc0, hc1, rfl, h0, h1⟩
  cases hl : (decide scores raw policy none strict).label
  · exact Or.inl rfl
  · exact Or.inr rfl

/-- Witness for C5, at the strict-gate scenario: the threshold 0.30 is
in [0,1] and the result is fully populated and bounded. -/
theorem decide_result_complete_witness :
    0 ≤ strictPolicy.global_threshold ∧ strictPolicy.global_threshold ≤ 1 ∧
    ((decide strictScores 0.95 strictPolicy none true).pillar_scores = strictScores ∧
    ((decide strictScores 0.95 strictPolicy none true).label = Label.pass ∨
      (decide strictScores 0.95 strictPolicy none true).label = Label.fail) ∧
    0 ≤ (decide strictScores 0.95 strictPolicy none true).final_score ∧
    (decide strictScores 0.95 strictPolicy none true).final_score ≤ 1 ∧
    0 ≤ (decide strictScores 0.95 strictPolicy none true).confidence ∧
    (decide strictScores 0.95 strictPolicy none true).confidence ≤ 1 ∧
    (decide strictScores 0.95 strictPolicy none true).threshold
      = strictPolicy.global_threshold ∧
    0 ≤ (decide strictScores 0.95 strictPolicy none true).threshold ∧
    (decide strictScores 0.95 strictPolicy none true).threshold ≤ 1) :=
  ⟨by decide, by decide,
    decide_result_complete strictScores 0.95 strictPolicy true (by decide) (by decide)⟩

/-- Claim C6: the recommendation mapping has exactly the four keys
capital, advantage, market, people in order, and a pillar scoring at
or above its benchmark maps to the empty list rather than being
omitted. -/
theorem recommend_keys_and_empty
    (scores : Pillar → ℚ) (importance : Pillar → List (String × ℚ))
    (benchmark : ℚ) (topN : ℕ) (p : Pillar) (h : benchmark ≤ scores p) :
    (recommend scores importance benchmark topN).map Prod.fst = pillarOrder ∧
    lookupBy (recommend scores importance benchmark topN) p = some [] := by
  have hnot : ¬ (scores p < benchmark) := not_lt.mpr h
  constructor
  · rfl
  · cases p <;> simp [recommend, pillarOrder, lookupBy, hnot]

/-- Witness for C6: with the boost-scenario scores, the people pillar
sits at 0.85, above the default benchmark 0.7, and is mapped to the
empty recommendation list while all four keys are present. -/
theorem recommend_keys_and_empty_witness :
    (0.7 : ℚ) ≤ boostScores Pillar.people ∧
    ((recommend boostScores (fun _ => []) 0.7 3).map Prod.fst = pillarOrder ∧
      lookupBy (recommend boostScores (fun _ => []) 0.7 3) Pillar.people = some []) :=
  ⟨by decide,
    recommend_keys_and_empty boostScores (fun _ => []) 0.7 3 Pillar.people (by decide)⟩

/-- Counterexample for C7: the persisted metadata document
models/v2/model_metadata.json contains neither a version string nor a
default decision threshold among its top-level keys. -/
theorem metadata_version_threshold_missing :
    ¬ ("version" ∈ model_metadata_keys ∧ "threshold" ∈ model_metadata_keys) := by
  decide

/-- Claim C7 (amended): the persisted metadata document records the
dataset size (54000), the success rate (0.276) and per-pillar and meta
performance metrics, but no version string and no default threshold;
the version ("v2") and the threshold (0.304) appear only in the
model-info response returned by get_model_info, here embedded through
its frontend fallback value. -/
theorem metadata_contents_amended :
    "dataset_size" ∈ model_metadata_keys ∧
    "success_rate" ∈ model_metadata_keys ∧
    "pillar_models" ∈ model_metadata_keys ∧
    "meta_model" ∈ model_metadata_keys ∧
    "version" ∉ model_metadata_keys ∧
    "threshold" ∉ model_metadata_keys ∧
    metadata_dataset_size = 54000 ∧
    metadata_success_rate = 0.276 ∧
    (docPillarMetrics Pillar.capital).auc = 0.752692469023773 ∧
    (docPillarMetrics Pillar.advantage).auc = 0.5135289411701915 ∧
    (docPillarMetrics Pillar.market).auc = 0.5386555058449002 ∧
    (docPillarMetrics Pillar.people).auc = 0.5346361461614826 ∧
    docMetaMetrics.auc = 0.7507641331107587 ∧
    fallbackModelInfo.model_version = "v2" ∧
    fallbackModelInfo.threshold = 0.304 ∧
    fallbackModelInfo.dataset_size = 54000 ∧
    fallbackModelInfo.success_rate = 0.276 := by
  refine ⟨by decide, by decide, by decide, by decide, by decide, by decide,
    rfl, rfl, rfl, rfl, rfl, rfl, rfl, rfl, rfl, rfl, rfl⟩

/-- Claim C8: for every pillar of the v2 metadata, the ordered feature
list has length equal to the declared feature_count (capital 7,
advantage 10, market 7, people 9), and an aligned feature vector over
that schema always has exactly that length. -/
theorem feature_lists_match_counts
    (metrics : List (String × ℚ)) (dflt : ℚ) (p : Pillar) :
    (pillarFeatures p).length = featureCount p ∧
    (align metrics (pillarFeatures p) dflt).length = featureCount p ∧
    (pillarFeatures Pillar.capital).length = 7 ∧
    (pillarFeatures Pillar.advantage).length = 10 ∧
    (pillarFeatures Pillar.market).length = 7 ∧
    (pillarFeatures Pillar.people).length = 9 := by
  refine ⟨?_, ?_, rfl, rfl, rfl, rfl⟩
  · cases p <;> rfl
  · cases p <;> simp [align, pillarFeatures, featureCount]

/-- Claim C9: for every success probability p in [0,1], the fallback
prediction built in ResultsPage when the hierarchical fetch fails has
confidence max(p, 1-p), which is at least 0.5, threshold exactly 0.5,
and prediction pass exactly when p is at least 0.5. -/
theorem fallback_prediction_spec
    (scores : Pillar → ℚ) (p : ℚ) (h0 : 0 ≤ p) (h1 : p ≤ 1) :
    (fallbackPrediction scores p).confidence = max p (1 - p) ∧
    (0.5 : ℚ) ≤ (fallbackPrediction scores p).confidence ∧
    (fallbackPrediction scores p).threshold = 0.5 ∧
    ((fallbackPrediction scores p).prediction = Label.pass ↔ (0.5 : ℚ) ≤ p) := by
  have hconf : (fallbackPrediction scores p).confidence = max p (1 - p) := by
    show maxQ p (1 - p) = max p (1 - p)
    exact maxQ_eq_max p (1 - p)
  refine ⟨hconf, ?_, rfl, ?_⟩
  · rw [hconf]
    rcases le_total p (1 - p) with hle | hle
    · rw [max_eq_right hle]
      have hp : p ≤ 0.5 := by linarith
      linarith
    · rw [max_eq_left hle]
      linarith
  · show (if (0.5 : ℚ) ≤ p then Label.pass else Label.fail) = Label.pass ↔ (0.5 : ℚ) ≤ p
    split_ifs with hp
    · simp [hp]
    · simp [hp]

/-- Witness for C9, at p = 0.3: the hypotheses 0 ≤ 0.3 ≤ 1 hold and
the fallback prediction satisfies the specification. -/
theorem fallback_prediction_spec_witness :
    (0 : ℚ) ≤ 0.3 ∧ (0.3 : ℚ) ≤ 1 ∧
    ((fallbackPrediction strictScores 0.3).confidence = max 0.3 (1 - 0.3) ∧
      (0.5 : ℚ) ≤ (fallbackPrediction strictScores 0.3).confidence ∧
      (fallbackPrediction strictScores 0.3).threshold = 0.5 ∧
      ((fallbackPrediction strictScores 0.3).prediction = Label.pass ↔
        (0.5 : ℚ) ≤ (0.3 : ℚ))) :=
  ⟨by decide, by decide,
    fallback_prediction_spec strictScores 0.3 (by decide) (by decide)⟩

/-- Claim C10: in the number branch of ensureProperValue, a negative
numeric input for net_profit_margin_percent becomes 0, a non-negative
number passes through unchanged, a NaN coercion becomes null, no other
metric is clamped, and the submitted value for
net_profit_margin_percent is never negative. -/
theorem ensureProperValue_net_profit_margin (name : String) (q : ℚ) :
    (q < 0 →
      ensureProperValue "net_profit_margin_percent" (NumInput.jnum q) = some 0) ∧
    (0 ≤ q →
      ensureProperValue "net_profit_margin_percent" (NumInput.jnum q) = some q) ∧
    ensureProperValue name NumInput.jnan = none ∧
    (name ≠ "net_profit_margin_percent" →
      ensureProperValue name (NumInput.jnum q) = some q) ∧
    (∀ r, ensureProperValue "net_profit_margin_percent" (NumInput.jnum q) = some r →
      0 ≤ r) := by
  refine ⟨?_, ?_, rfl, ?_, ?_⟩
  · intro hq
    show (if "net_profit_margin_percent" = "net_profit_margin_percent" ∧ q < 0
        then some (0 : ℚ) else some q) = some 0
    rw [if_pos ⟨rfl, hq⟩]
  · intro hq
    show (if "net_profit_margin_percent" = "net_profit_margin_percent" ∧ q < 0
        then some (0 : ℚ) else some q) = some q
    rw [if_neg (fun hc => absurd hq (not_le.mpr hc.2))]
  · intro hname
    show (if name = "net_profit_margin_percent" ∧ q < 0
        then some (0 : ℚ) else some q) = some q
    rw [if_neg (fun hc => hname hc.1)]
  · intro r hr
    have hr2 : (if "net_profit_margin_percent" = "net_profit_margin_percent" ∧ q < 0
        then some (0 : ℚ) else some q) = some r := hr
    by_cases hq : q < 0
    · rw [if_pos ⟨rfl, hq⟩] at hr2
      cases hr2
      exact le_refl 0
    · rw [if_neg (fun hc => hq hc.2)] at hr2
      cases hr2
      exact le_of_not_lt hq

/-- Witness for C10, at q = -1: the negative input is clamped to 0 for
net_profit_margin_percent and passes through unchanged for another
metric such as gross_margin. -/
theorem ensureProperValue_net_profit_margin_witness :
    (-1 : ℚ) < 0 ∧
    "gross_margin" ≠ "net_profit_margin_percent" ∧
    ensureProperValue "net_profit_margin_percent" (NumInput.jnum (-1)) = some 0 ∧
    ensureProperValue "gross_margin" (NumInput.jnum (-1)) = some (-1) :=
  ⟨by decide, by decide,
    (ensureProperValue_net_profit_margin "gross_margin" (-1)).1 (by decide),
    (ensureProperValue_net_profit_margin "gross_margin" (-1)).2.2.2.1 (by decide)⟩

end Theorems

end FlashCamp
